import Mathlib

/-!
Shallow embedding of `pkg/module/directory/group.go` (package `directory`)
from the `verifyctl` repository, together with theorems settling the frozen
claims C1-C10 about the natural-language specification of that file.

The embedding strategy:
* Go `interface{}` values that carry parsed JSON are modelled by `GoVal`;
  Go maps (`map[string]interface{}`) are association lists with `lookupKey`
  returning the value of the (unique) key, and `setKey` modelling Go's
  `m[k] = v` assignment.
* The HTTP transport (`pkg/util/http`, not part of the verified source) is an
  oracle: each client call's result is a field of `Env`.  A Go
  `(*Response, error)` pair is `TResult`: `.ok r` is a nil error with a usable
  response, `.err e r?` is a non-nil transport error whose accompanying
  response pointer is `r?` (`none` models a nil response pointer).
* `module.HandleCommonErrors` (the shared status/body classifier, also outside
  the verified source) is the oracle `Env.classify`; `none` means it
  recognized nothing, `some e` means it produced error `e`.
* `getUserId` of the companion user client (outside the verified source) is
  the oracle `Env.resolve`; modelled from the spec: the Identity resolver
  capability maps a username to an opaque ID or fails with a descriptive
  error.
* Functions return an `Outcome` (success / returned Go error / runtime panic)
  paired with the list of transport calls the group client issued, in order.
  Error strings reproduce the `fmt.Errorf` formats of the source.
* Machine integers do not overflow in any modelled path, so status codes are
  plain `Nat`.
-/

namespace VerifyDirectory

/-- Parsed JSON values, the model of Go `interface{}` data produced by
`encoding/json.Unmarshal` into untyped containers. -/
inductive GoVal where
  | null : GoVal
  | str : String → GoVal
  | num : Int → GoVal
  | bool : Bool → GoVal
  | list : List GoVal → GoVal
  | map : List (String × GoVal) → GoVal

/-- Lookup in a Go `map[string]interface{}` modelled as an association list:
`m[k]` with the comma-ok idiom returning `none` when the key is absent. -/
def lookupKey (kvs : List (String × GoVal)) (k : String) : Option GoVal :=
  match kvs with
  | [] => none
  | kv :: rest => if kv.1 = k then some kv.2 else lookupKey rest k

/-- Go map assignment `m[k] = v`: replaces the value of an existing key, or
adds the binding when the key is absent. -/
def setKey (kvs : List (String × GoVal)) (k : String) (v : GoVal) :
    List (String × GoVal) :=
  if kvs.any (fun kv => kv.1 = k) then
    kvs.map (fun kv => if kv.1 = k then (kv.1, v) else kv)
  else kvs ++ [(k, v)]

/-! ### The regular expression of `extractUsernameFromPath`

The Go source compiles `value eq "?([^"]+)"?` and takes submatch 1 of the
leftmost match (Go regexp: the match starting earliest in the input; the
optional quote and the capture group behave as in a backtracking search).
We model this directly: scan positions left to right; at the first position
where the literal `value eq ` (9 characters) matches, optionally consume a
double quote, then capture the maximal nonempty run of non-quote characters;
if the capture would be empty the whole pattern fails at this position and
scanning continues one character later. -/

/-- The literal prefix `value eq ` of the regular expression (9 characters). -/
def valueEqPat : List Char :=
  ['v', 'a', 'l', 'u', 'e', ' ', 'e', 'q', ' ']

/-- Does the pattern `p` occur literally at the head of `s`? -/
def startsWith : List Char → List Char → Bool
  | [], _ => true
  | _ :: _, [] => false
  | p :: ps, c :: cs => if p = c then startsWith ps cs else false

/-- After the literal `value eq ` has been consumed, match `"?([^"]+)"?` and
return the capture: an optional opening quote, then a maximal nonempty run of
non-quote characters (the trailing optional quote never affects the capture). -/
def matchCapture (s : List Char) : Option (List Char) :=
  let t := if s.head? = some '"' then s.tail else s
  let cap := t.takeWhile (fun c => c != '"')
  if cap.isEmpty then none else some cap

/-- Scan the input left to right for the leftmost position where the whole
regular expression matches, returning capture group 1 there. -/
def extractAux : List Char → Option (List Char)
  | [] => none
  | c :: cs =>
    if startsWith valueEqPat (c :: cs) then
      match matchCapture ((c :: cs).drop valueEqPat.length) with
      | some cap => some cap
      | none => extractAux cs
    else extractAux cs

/-- Model of `extractUsernameFromPath` (group.go:379-387): submatch 1 of the
leftmost match of `value eq "?([^"]+)"?`, or `""` when there is no match. -/
def extractUsernameFromPath (path : String) : String :=
  match extractAux path.toList with
  | some cap => String.mk cap
  | none => ""

/-! ### The SCIM data model (structs of group.go:24-85) -/

/-- Go struct `Member` (group.go:42-47).  `mtype` is Go field `Type`
(JSON key `type`); `ref` is Go field `Ref` (JSON key `$ref`). -/
structure Member where
  mtype : String
  value : String
  display : String
  ref : String
deriving DecidableEq

/-- Go struct `Owner` (group.go:54-58). -/
structure Owner where
  value : String
  ref : String
  displayName : String
deriving DecidableEq

/-- Go struct `IBMGROUPExtension` (group.go:49-52). -/
structure IBMGROUPExtension where
  description : String
  owners : List Owner
deriving DecidableEq

/-- Go struct `GroupNotification` (group.go:60-64). -/
structure GroupNotification where
  notifyType : String
  notifyPassword : Bool
  notifyManager : Bool
deriving DecidableEq

/-- Go struct `GroupMeta` (group.go:66-69). -/
structure GroupMeta where
  created : String
  lastModified : String
deriving DecidableEq

/-- Go struct `Group` (group.go:30-40).  `ibmGroup` is Go field `IBMGROUP`
(the ibm:2.0:Group extension), `notification` the ibm:2.0:Notification
extension. -/
structure Group where
  schemas : List String
  id : String
  externalId : String
  displayName : String
  visible : Bool
  members : List Member
  ibmGroup : IBMGROUPExtension
  notification : GroupNotification
  meta : GroupMeta
deriving DecidableEq

/-- Go struct `GroupListResponse` (group.go:24-28); `groups` is Go field
`Groups` (JSON key `Resources`). -/
structure GroupListResponse where
  totalResults : Int
  schemas : List String
  groups : List Group
deriving DecidableEq

/-- Go struct `GroupSCIMOpEntry` (group.go:81-85).  The Go `Value` field is
`interface{}` holding caller-supplied JSON-ish data; a Go nil is
`GoVal.null`. -/
structure GroupSCIMOpEntry where
  op : String
  path : String
  value : GoVal

/-- Go struct `GroupSCIMPatchRequest` (group.go:76-79). -/
structure GroupSCIMPatchRequest where
  schemas : List String
  operations : List GroupSCIMOpEntry

/-! ### Decoding response bodies (`encoding/json.Unmarshal` into the structs)

Missing keys and JSON `null` leave a field at its zero value; a present key
of the wrong type makes the whole decode fail (`none`), as `json.Unmarshal`
errors do.  Unknown keys are ignored. -/

/-- Decode a string field: absent or null gives the zero value `""`. -/
def decStr (kvs : List (String × GoVal)) (k : String) : Option String :=
  match lookupKey kvs k with
  | none => some ""
  | some .null => some ""
  | some (.str s) => some s
  | some _ => none

/-- Decode a bool field: absent or null gives the zero value `false`. -/
def decBool (kvs : List (String × GoVal)) (k : String) : Option Bool :=
  match lookupKey kvs k with
  | none => some false
  | some .null => some false
  | some (.bool b) => some b
  | some _ => none

/-- Decode an int field: absent or null gives the zero value `0`. -/
def decInt (kvs : List (String × GoVal)) (k : String) : Option Int :=
  match lookupKey kvs k with
  | none => some 0
  | some .null => some 0
  | some (.num n) => some n
  | some _ => none

/-- Decode a `[]string` field: absent or null gives a nil slice. -/
def decStrList (kvs : List (String × GoVal)) (k : String) : Option (List String) :=
  match lookupKey kvs k with
  | none => some []
  | some .null => some []
  | some (.list xs) => xs.mapM (fun v => match v with | .str s => some s | _ => none)
  | some _ => none

/-- Decode a slice-of-objects field with element decoder `f`. -/
def decObjList {α : Type} (kvs : List (String × GoVal)) (k : String)
    (f : GoVal → Option α) : Option (List α) :=
  match lookupKey kvs k with
  | none => some []
  | some .null => some []
  | some (.list xs) => xs.mapM f
  | some _ => none

/-- Decode one `Member` object. -/
def decodeMember (v : GoVal) : Option Member :=
  match v with
  | .map kvs => do
    let t ← decStr kvs "type"
    let val ← decStr kvs "value"
    let d ← decStr kvs "display"
    let r ← decStr kvs "$ref"
    some ⟨t, val, d, r⟩
  | .null => some ⟨"", "", "", ""⟩
  | _ => none

/-- Decode one `Owner` object. -/
def decodeOwner (v : GoVal) : Option Owner :=
  match v with
  | .map kvs => do
    let val ← decStr kvs "value"
    let r ← decStr kvs "$ref"
    let d ← decStr kvs "displayName"
    some ⟨val, r, d⟩
  | .null => some ⟨"", "", ""⟩
  | _ => none

/-- Decode an embedded `IBMGROUPExtension` object field. -/
def decIBM (kvs : List (String × GoVal)) (k : String) : Option IBMGROUPExtension :=
  match lookupKey kvs k with
  | none => some ⟨"", []⟩
  | some .null => some ⟨"", []⟩
  | some (.map m) => do
    let d ← decStr m "description"
    let os ← decObjList m "owners" decodeOwner
    some ⟨d, os⟩
  | some _ => none

/-- Decode an embedded `GroupNotification` object field. -/
def decNotif (kvs : List (String × GoVal)) (k : String) : Option GroupNotification :=
  match lookupKey kvs k with
  | none => some ⟨"", false, false⟩
  | some .null => some ⟨"", false, false⟩
  | some (.map m) => do
    let t ← decStr m "notifyType"
    let p ← decBool m "notifyPassword"
    let mg ← decBool m "notifyManager"
    some ⟨t, p, mg⟩
  | some _ => none

/-- Decode an embedded `GroupMeta` object field. -/
def decMeta (kvs : List (String × GoVal)) (k : String) : Option GroupMeta :=
  match lookupKey kvs k with
  | none => some ⟨"", ""⟩
  | some .null => some ⟨"", ""⟩
  | some (.map m) => do
    let c ← decStr m "created"
    let lm ← decStr m "lastModified"
    some ⟨c, lm⟩
  | some _ => none

/-- Decode a JSON value into the `Group` struct; a non-object fails, as
`json.Unmarshal` into a struct does, except the JSON literal `null`, which
leaves the struct at its zero value and produces no error. -/
def decodeGroupVal (v : GoVal) : Option Group :=
  match v with
  | .null => some ⟨[], "", "", "", false, [], ⟨"", []⟩, ⟨"", false, false⟩, ⟨"", ""⟩⟩
  | .map kvs => do
    let schemas ← decStrList kvs "schemas"
    let id ← decStr kvs "id"
    let externalId ← decStr kvs "externalId"
    let displayName ← decStr kvs "displayName"
    let visible ← decBool kvs "visible"
    let members ← decObjList kvs "members" decodeMember
    let ibm ← decIBM kvs "urn:ietf:params:scim:schemas:extension:ibm:2.0:Group"
    let notif ← decNotif kvs "urn:ietf:params:scim:schemas:extension:ibm:2.0:Notification"
    let meta ← decMeta kvs "meta"
    some ⟨schemas, id, externalId, displayName, visible, members, ibm, notif, meta⟩
  | _ => none

/-- Decode a response body into `Group`; an unparsable body (`none`) fails. -/
def decodeGroup (body : Option GoVal) : Option Group :=
  match body with
  | some v => decodeGroupVal v
  | none => none

/-- Decode a response body into `GroupListResponse` (the list envelope with
`totalResults`, `schemas`, `Resources`); a JSON `null` body unmarshals
without error (the zero envelope). -/
def decodeGroupList (body : Option GoVal) : Option GroupListResponse :=
  match body with
  | some .null => some ⟨0, [], []⟩
  | some (.map kvs) => do
    let tr ← decInt kvs "totalResults"
    let schemas ← decStrList kvs "schemas"
    let gs ← decObjList kvs "Resources" decodeGroupVal
    some ⟨tr, schemas, gs⟩
  | _ => none

/-! ### Transport, environment and outcomes -/

/-- The tenant/token configuration handed to every call
(`config.AuthConfig`; only the fields group.go reads). -/
structure AuthConfig where
  tenant : String
  token : String

/-- An HTTP response as group.go sees it: the status code, the raw body bytes
(used verbatim inside error messages), and the JSON parse of those bytes
(`none` when the body is not valid JSON of any shape). -/
structure Response where
  statusCode : Nat
  raw : String
  body : Option GoVal

/-- The result of one transport call, Go's `(*Response, error)` pair:
`ok r` is a nil error, `err e r?` a transport error `e` whose accompanying
response pointer is `r?` (`none` models a nil `*Response`). -/
inductive TResult where
  | ok : Response → TResult
  | err : String → Option Response → TResult

/-- The oracle environment: one transport result per client call site, plus
the external Identity resolver (`getUserId` of the user client, modelled from
the spec: a username maps to an opaque ID or a descriptive error) and the
shared classifier `module.HandleCommonErrors` (modelled from the spec: it
inspects a response and either recognizes a common error or stays silent). -/
structure Env where
  lookupResp : TResult
  byIdResp : TResult
  listResp : TResult
  postResp : TResult
  deleteResp : TResult
  patchResp : TResult
  resolve : String → Except String String
  classify : Response → Option String

/-- The observable result of one client call: a returned value, a returned Go
error (the message string), or a runtime panic. -/
inductive Outcome (α : Type) where
  | ok : α → Outcome α
  | err : String → Outcome α
  | panics : Outcome α

/-- Is the outcome a success? -/
def Outcome.isOk {α : Type} : Outcome α → Bool
  | .ok _ => true
  | _ => false

/-- Is the outcome a returned error? -/
def Outcome.isErr {α : Type} : Outcome α → Bool
  | .err _ => true
  | _ => false

/-- One outbound transport call made by the group client, with its request
payload (requests are recorded at the model level rather than as JSON
bytes; serialization is injective on the recorded data). -/
inductive Call where
  | get : String → Call
  | post : String → Group → Call
  | patch : String → GroupSCIMPatchRequest → Call
  | delete : String → Call

/-- The response of a `TResult` as Go sees it after discarding the error
(`response, _ := ...`): possibly a nil pointer. -/
def respOf : TResult → Option Response
  | .ok r => some r
  | .err _ r? => r?

/-! ### URL construction (`net/url`) -/

/-- Upper-case hexadecimal digit. -/
def hexDigit (n : Nat) : Char :=
  if n < 10 then Char.ofNat (48 + n) else Char.ofNat (55 + n)

/-- `url.QueryEscape` for one character (ASCII model; every claim input is
ASCII): unreserved characters pass, space becomes `+`, the rest `%XX`. -/
def escapeChar (c : Char) : List Char :=
  if c.isAlphanum ∨ c = '-' ∨ c = '_' ∨ c = '.' ∨ c = '~' then [c]
  else if c = ' ' then ['+']
  else ['%', hexDigit (c.toNat / 16 % 16), hexDigit (c.toNat % 16)]

/-- `url.QueryEscape` on a string. -/
def queryEscape (s : String) : String :=
  String.mk ((s.toList.map escapeChar).flatten)

/-- `url.Values.Encode` on an already key-sorted parameter list. -/
def encodeQuery (ps : List (String × String)) : String :=
  String.intercalate "&" (ps.map (fun p => queryEscape p.1 ++ "=" ++ queryEscape p.2))

/-- The collection endpoint `https://<tenant>/v2.0/Groups`. -/
def collectionURL (auth : AuthConfig) : String :=
  "https://" ++ auth.tenant ++ "/v2.0/Groups"

/-- The single-resource endpoint `https://<tenant>/v2.0/Groups/<id>`. -/
def groupByIdURL (auth : AuthConfig) (id : String) : String :=
  collectionURL auth ++ "/" ++ id

/-- The filtered lookup URL of `getGroupId` (group.go:343-346): the
collection endpoint with `filter=displayName eq "<name>"` encoded. -/
def lookupURL (auth : AuthConfig) (name : String) : String :=
  collectionURL auth ++ "?" ++
    encodeQuery [("filter", "displayName eq \"" ++ name ++ "\"")]

/-- The query parameters of `GetGroups` (group.go:140-152) in the key-sorted
order `url.Values.Encode` emits: `count` before `sortBy`, each present
exactly when the corresponding argument is non-empty. -/
def getGroupsParams (sort count : String) : List (String × String) :=
  (if count ≠ "" then [("count", count)] else []) ++
    (if sort ≠ "" then [("sortBy", sort)] else [])

/-- The `GetGroups` request URL: `RawQuery` is only set when at least one
parameter was added (group.go:150-152), so with both arguments empty the URL
carries no query string at all. -/
def groupsURL (auth : AuthConfig) (sort count : String) : String :=
  let ps := getGroupsParams sort count
  if ps = [] then collectionURL auth
  else collectionURL auth ++ "?" ++ encodeQuery ps

/-! ### The client operations (group.go:93-377) -/

/-- `json.Unmarshal` of a response body into `map[string]interface{}`: it
fails unless the body is valid JSON whose top level is an object — or the
literal `null`, which per encoding/json semantics produces a nil map and no
error (modelled as the empty association list: every lookup misses). -/
def unmarshalToMap (body : Option GoVal) : Option (List (String × GoVal)) :=
  match body with
  | some (.map kvs) => some kvs
  | some .null => some []
  | _ => none

/-- The body-inspection tail of `getGroupId` (group.go:356-376): unmarshal
the body as a generic mapping (a JSON `null` body yields a nil map without
error), take the `Resources` array (absent, non-array or empty gives the
no-group error), then the string `id` of the resource at index 0. -/
def parseGroupId (body : Option GoVal) (name : String) : Outcome String :=
  match unmarshalToMap body with
  | some data =>
    match lookupKey data "Resources" with
    | some (.list resources) =>
      match resources with
      | [] => .err ("no group found with group name " ++ name)
      | r0 :: _ =>
        match r0 with
        | .map firstResource =>
          match lookupKey firstResource "id" with
          | some (.str id) => .ok id
          | _ => .err "ID not found or invalid type"
        | _ => .err "invalid resource format"
    | _ => .err ("no group found with group name " ++ name)
  | none => .err "failed to parse response"

/-- Model of `getGroupId` (group.go:335-377).  Note the source line 348
discards the transport error (`response, _ := c.client.Get(...)`): a nil
response pointer then panics at `response.StatusCode`, and a non-nil one is
inspected as if the call had succeeded.  On a non-200 status the classifier
is consulted; when it recognizes nothing the code falls through to body
parsing (there is no generic-error return in this function). -/
def getGroupId (env : Env) (name : String) : Outcome String :=
  match respOf env.lookupResp with
  | none => .panics
  | some response =>
    if response.statusCode = 200 then parseGroupId response.body name
    else
      match env.classify response with
      | some e =>
        .err ("unable to get the Group with groupName " ++ name ++ "; err=" ++ e)
      | none => parseGroupId response.body name

/-- Response handling of `GetGroup` (group.go:106-127) once the by-id GET
has been issued at URL `u`: transport errors return as-is, 200 decodes the
body, any other status consults the classifier before the generic error. -/
def getGroupResult (env : Env) (u : String) : Outcome (Group × String) :=
  match env.byIdResp with
  | .err e _ => .err e
  | .ok response =>
    if response.statusCode = 200 then
      match decodeGroup response.body with
      | none => .err "unable to get the Group"
      | some g => .ok (g, u)
    else
      match env.classify response with
      | some e => .err e
      | none => .err "unable to get the Group"

/-- Model of `GetGroup` (group.go:93-128), returning the outcome (decoded
group and its URL) together with the transport calls issued in order. -/
def GetGroup (env : Env) (auth : AuthConfig) (groupName : String) :
    Outcome (Group × String) × List Call :=
  let lookupCall := Call.get (lookupURL auth groupName)
  match getGroupId env groupName with
  | .panics => (.panics, [lookupCall])
  | .err e => (.err e, [lookupCall])
  | .ok id =>
    let u := groupByIdURL auth id
    (getGroupResult env u, [lookupCall, Call.get u])

/-- Response handling of `GetGroups` (group.go:154-177) for the collection
GET issued at URL `u`. -/
def getGroupsResult (env : Env) (u : String) : Outcome (GroupListResponse × String) :=
  match env.listResp with
  | .err e _ => .err e
  | .ok response =>
    if response.statusCode = 200 then
      match decodeGroupList response.body with
      | none => .err "unable to get the Groups"
      | some lr => .ok (lr, u)
    else
      match env.classify response with
      | some e => .err e
      | none => .err "unable to get the Groups"

/-- Model of `GetGroups` (group.go:130-178). -/
def GetGroups (env : Env) (auth : AuthConfig) (sort count : String) :
    Outcome (GroupListResponse × String) × List Call :=
  let u := groupsURL auth sort count
  (getGroupsResult env u, [Call.get u])

/-- The member-resolution loop of `CreateGroup` (group.go:191-203): every
member's `Value` is treated as a username and resolved; the first failure
aborts with the offending username and the resolver's error text. -/
def resolveMembers (resolve : String → Except String String) :
    List Member → Except (String × String) (List Member)
  | [] => .ok []
  | m :: ms =>
    match resolve m.value with
    | .error e => .error (m.value, e)
    | .ok uid =>
      match resolveMembers resolve ms with
      | .error x => .error x
      | .ok ms' => .ok ({ m with value := uid } :: ms')

/-- Response handling of `CreateGroup` (group.go:211-229) after the POST.
The body is unmarshalled into a generic mapping (a JSON `null` body yields a
nil map and no error), and line 228 of the source reads
`id := m["id"].(string)` — a single-valued type assertion, so a map whose
`id` lookup is absent (in particular the nil map from a `null` body) or not
a string panics instead of returning an error. -/
def createGroupResult (env : Env) (auth : AuthConfig) : Outcome String :=
  match env.postResp with
  | .err e _ => .err e
  | .ok response =>
    if response.statusCode = 201 then
      match unmarshalToMap response.body with
      | none => .err "Failed to parse response"
      | some m =>
        match lookupKey m "id" with
        | some (.str id) => .ok (groupByIdURL auth id)
        | _ => .panics
    else
      .err ("Failed to create group; code=" ++ toString response.statusCode ++
        ", body=" ++ response.raw)

/-- Model of `CreateGroup` (group.go:180-230): see `createGroupResult` for
the response handling after the POST. -/
def CreateGroup (env : Env) (auth : AuthConfig) (group : Group) :
    Outcome String × List Call :=
  match resolveMembers env.resolve group.members with
  | .error x =>
    (.err ("unable to get user ID for username " ++ x.1 ++ "; err=" ++ x.2), [])
  | .ok members' =>
    let group' := { group with members := members' }
    (createGroupResult env auth, [Call.post (collectionURL auth) group'])

/-- Response handling of `DeleteGroup` (group.go:247-263) after the DELETE:
success is exactly 204; otherwise the classifier is consulted before the
generic error, and both error kinds are wrapped. -/
def deleteGroupResult (env : Env) : Outcome Unit :=
  match env.deleteResp with
  | .err e _ => .err ("unable to delete the Group; err=" ++ e)
  | .ok response =>
    if response.statusCode = 204 then .ok ()
    else
      match env.classify response with
      | some e => .err ("unable to delete the Group; err=" ++ e)
      | none => .err "unable to delete the Group"

/-- Model of `DeleteGroup` (group.go:232-264). -/
def DeleteGroup (env : Env) (auth : AuthConfig) (groupName : String) :
    Outcome Unit × List Call :=
  let lookupCall := Call.get (lookupURL auth groupName)
  match getGroupId env groupName with
  | .panics => (.panics, [lookupCall])
  | .err e => (.err ("unable to get the group ID; err=" ++ e), [lookupCall])
  | .ok id =>
    let u := groupByIdURL auth id
    (deleteGroupResult env, [lookupCall, Call.delete u])

/-- One element of an `add`/`members` value list after resolution with the
(total) resolver output `rid`: a mapping with a string `value` key has that
value replaced, everything else is unchanged. -/
def rewriteElt (rid : String → String) : GoVal → GoVal
  | .map m =>
    match lookupKey m "value" with
    | some (.str u) => .map (setKey m "value" (.str (rid u)))
    | _ => .map m
  | v => v

/-- Does a value-list element carry a string-typed `value` key? -/
def hasStrValue : GoVal → Bool
  | .map m =>
    match lookupKey m "value" with
    | some (.str _) => true
    | _ => false
  | _ => false

/-- The inner loop of the `add`/`members` branch of `UpdateGroup`
(group.go:278-289): elements that are mappings with a string `value` have
the username resolved and overwritten; all other elements pass through; the
first resolution failure aborts with the offending username. -/
def rewriteMembers (resolve : String → Except String String) :
    List GoVal → Except (String × String) (List GoVal)
  | [] => .ok []
  | v :: vs =>
    match v with
    | .map m =>
      match lookupKey m "value" with
      | some (.str username) =>
        match resolve username with
        | .error e => .error (username, e)
        | .ok uid =>
          match rewriteMembers resolve vs with
          | .error x => .error x
          | .ok vs' => .ok (.map (setKey m "value" (.str uid)) :: vs')
      | _ =>
        match rewriteMembers resolve vs with
        | .error x => .error x
        | .ok vs' => .ok (v :: vs')
    | _ =>
      match rewriteMembers resolve vs with
      | .error x => .error x
      | .ok vs' => .ok (v :: vs')

/-- One iteration of the operation-rewriting loop of `UpdateGroup`
(group.go:275-302): `add`+`members` resolves usernames inside the value
list (a non-list value passes through); `remove` extracts a username from
the path and, when one was extracted, rewrites the whole path to
`members[value eq "<id>"]`; every other operation passes through. -/
def rewriteOp (resolve : String → Except String String)
    (op : GroupSCIMOpEntry) : Except (String × String) GroupSCIMOpEntry :=
  if op.op = "add" ∧ op.path = "members" then
    match op.value with
    | .list vs =>
      match rewriteMembers resolve vs with
      | .error x => .error x
      | .ok vs' => .ok { op with value := .list vs' }
    | _ => .ok op
  else if op.op = "remove" then
    let username := extractUsernameFromPath op.path
    if username ≠ "" then
      match resolve username with
      | .error e => .error (username, e)
      | .ok uid =>
        .ok { op with path := "members[value eq \"" ++ uid ++ "\"]" }
    else .ok op
  else .ok op

/-- The whole rewriting loop over the caller's operation list, aborting at
the first resolution failure. -/
def rewriteOps (resolve : String → Except String String) :
    List GroupSCIMOpEntry → Except (String × String) (List GroupSCIMOpEntry)
  | [] => .ok []
  | op :: ops =>
    match rewriteOp resolve op with
    | .error x => .error x
    | .ok op' =>
      match rewriteOps resolve ops with
      | .error x => .error x
      | .ok ops' => .ok (op' :: ops')

/-- Response handling of `UpdateGroup` (group.go:322-332) after the PATCH:
success is exactly HTTP 204, any other status yields the generic
status-bearing error of line 329 (the classifier is not consulted here). -/
def updateGroupResult (env : Env) : Outcome Unit :=
  match env.patchResp with
  | .err e _ => .err ("unable to update group; err=" ++ e)
  | .ok response =>
    if response.statusCode = 204 then .ok ()
    else
      .err ("failed to update group ; code=" ++ toString response.statusCode ++
        ", body=" ++ response.raw)

/-- Model of `UpdateGroup` (group.go:266-333): resolve the group name, run
the rewriting loop, then build the PatchOp envelope and PATCH it; see
`updateGroupResult` for the response handling. -/
def UpdateGroup (env : Env) (auth : AuthConfig) (groupName : String)
    (operations : List GroupSCIMOpEntry) : Outcome Unit × List Call :=
  let lookupCall := Call.get (lookupURL auth groupName)
  match getGroupId env groupName with
  | .panics => (.panics, [lookupCall])
  | .err e => (.err ("unable to get the group ID; err=" ++ e), [lookupCall])
  | .ok groupID =>
    match rewriteOps env.resolve operations with
    | .error x =>
      (.err ("unable to get user ID for username " ++ x.1 ++ "; err=" ++ x.2),
        [lookupCall])
    | .ok ops' =>
      let patchRequest : GroupSCIMPatchRequest :=
        ⟨["urn:ietf:params:scim:api:messages:2.0:PatchOp"], ops'⟩
      let u := groupByIdURL auth groupID
      (updateGroupResult env, [lookupCall, Call.patch u patchRequest])

/-! ### Helper lemmas about strings and the extraction scanner -/

theorem toList_append (s t : String) : (s ++ t).toList = s.toList ++ t.toList :=
  rfl

theorem mk_toList (s : String) : String.mk s.toList = s := by
  cases s
  rfl

theorem toList_ne_nil (s : String) (h : s ≠ "") : s.toList ≠ [] := by
  intro hc
  apply h
  cases s with
  | mk data =>
    simp only [String.toList, String.data] at hc
    subst hc
    rfl

theorem takeWhile_nonquote_all (l : List Char) (h : ∀ c ∈ l, c ≠ '"') :
    l.takeWhile (fun c => c != '"') = l := by
  induction l with
  | nil => rfl
  | cons a as ih =>
    have ha : a ≠ '"' := h a (by simp)
    simp only [List.takeWhile_cons]
    rw [if_pos (by simpa using ha)]
    rw [ih (fun c hc => h c (by simp [hc]))]

theorem takeWhile_nonquote_stop (l : List Char) (h : ∀ c ∈ l, c ≠ '"')
    (l₂ : List Char) :
    (l ++ '"' :: l₂).takeWhile (fun c => c != '"') = l := by
  induction l with
  | nil => simp [List.takeWhile_cons]
  | cons a as ih =>
    have ha : a ≠ '"' := h a (by simp)
    simp only [List.cons_append, List.takeWhile_cons]
    rw [if_pos (by simpa using ha)]
    rw [ih (fun c hc => h c (by simp [hc]))]

theorem extractAux_skip (c : Char) (cs : List Char) (h : c ≠ 'v') :
    extractAux (c :: cs) = extractAux cs := by
  have hs : startsWith valueEqPat (c :: cs) = false := by
    rw [valueEqPat, startsWith]
    rw [if_neg (fun hh => h hh.symm)]
  rw [extractAux, hs]
  simp

theorem extractAux_here (rest cap : List Char) (h : matchCapture rest = some cap) :
    extractAux ('v' :: 'a' :: 'l' :: 'u' :: 'e' :: ' ' :: 'e' :: 'q' :: ' ' :: rest) =
      some cap := by
  rw [extractAux]
  have hs : startsWith valueEqPat
      ('v' :: 'a' :: 'l' :: 'u' :: 'e' :: ' ' :: 'e' :: 'q' :: ' ' :: rest) = true := by
    simp [valueEqPat, startsWith]
  rw [hs]
  have hd : ('v' :: 'a' :: 'l' :: 'u' :: 'e' :: ' ' :: 'e' :: 'q' :: ' ' :: rest).drop
      valueEqPat.length = rest := by
    simp [valueEqPat]
  simp only [if_true]
  rw [hd, h]

theorem matchCapture_eq_some (s cap : List Char)
    (h : (if s.head? = some '"' then s.tail else s).takeWhile (fun c => c != '"') = cap)
    (hne : cap ≠ []) : matchCapture s = some cap := by
  show (if ((if s.head? = some '"' then s.tail else s).takeWhile
        (fun c => c != '"')).isEmpty = true then none
      else some ((if s.head? = some '"' then s.tail else s).takeWhile
        (fun c => c != '"'))) = some cap
  rw [h, if_neg]
  simp [hne]

theorem matchCapture_quoted (u : String) (h1 : u ≠ "")
    (h2 : ∀ c ∈ u.toList, c ≠ '"') (l₂ : List Char) :
    matchCapture ('"' :: (u.toList ++ '"' :: l₂)) = some u.toList := by
  apply matchCapture_eq_some
  · rw [List.head?_cons, if_pos rfl, List.tail_cons]
    exact takeWhile_nonquote_stop u.toList h2 l₂
  · exact toList_ne_nil u h1

theorem matchCapture_unquoted (u : String) (h1 : u ≠ "")
    (h2 : ∀ c ∈ u.toList, c ≠ '"') :
    matchCapture u.toList = some u.toList := by
  have hne : u.toList ≠ [] := toList_ne_nil u h1
  have hh : ¬ u.toList.head? = some '"' := by
    cases hu : u.toList with
    | nil => exact absurd hu hne
    | cons c cs =>
      have : c ≠ '"' := h2 c (by rw [hu]; simp)
      simp [this]
  apply matchCapture_eq_some
  · rw [if_neg hh]
    exact takeWhile_nonquote_all u.toList h2
  · exact hne

theorem extract_quoted (u : String) (h1 : u ≠ "") (h2 : ∀ c ∈ u.toList, c ≠ '"') :
    extractUsernameFromPath ("members[value eq \"" ++ u ++ "\"]") = u := by
  have hpre : "members[value eq \"".toList =
      ['m', 'e', 'm', 'b', 'e', 'r', 's', '[', 'v', 'a', 'l', 'u', 'e', ' ', 'e', 'q',
        ' ', '"'] := rfl
  have hsuf : "\"]".toList = ['"', ']'] := rfl
  have key : extractAux ("members[value eq \"" ++ u ++ "\"]").toList = some u.toList := by
    rw [toList_append, toList_append, hpre, hsuf, List.append_assoc]
    simp only [List.cons_append, List.nil_append]
    rw [extractAux_skip _ _ (by decide), extractAux_skip _ _ (by decide),
      extractAux_skip _ _ (by decide), extractAux_skip _ _ (by decide),
      extractAux_skip _ _ (by decide), extractAux_skip _ _ (by decide),
      extractAux_skip _ _ (by decide), extractAux_skip _ _ (by decide)]
    exact extractAux_here _ _ (matchCapture_quoted u h1 h2 [']'])
  unfold extractUsernameFromPath
  rw [key]
  exact mk_toList u

theorem extract_unquoted (u : String) (h1 : u ≠ "") (h2 : ∀ c ∈ u.toList, c ≠ '"') :
    extractUsernameFromPath ("value eq " ++ u) = u := by
  have hpre : "value eq ".toList =
      ['v', 'a', 'l', 'u', 'e', ' ', 'e', 'q', ' '] := rfl
  have key : extractAux ("value eq " ++ u).toList = some u.toList := by
    rw [toList_append, hpre]
    simp only [List.cons_append, List.nil_append]
    exact extractAux_here _ _ (matchCapture_unquoted u h1 h2)
  unfold extractUsernameFromPath
  rw [key]
  exact mk_toList u

theorem rewriteOp_remove_rewrites (resolve : String → Except String String)
    (op : GroupSCIMOpEntry) (u uid : String) (hop : op.op = "remove")
    (hext : extractUsernameFromPath op.path = u) (hu : u ≠ "")
    (hres : resolve u = .ok uid) :
    rewriteOp resolve op = .ok { op with path := "members[value eq \"" ++ uid ++ "\"]" } := by
  unfold rewriteOp
  rw [if_neg (fun hc => by rw [hop] at hc; exact absurd hc.1 (by decide))]
  rw [if_pos hop, hext, if_pos hu, hres]

theorem rewriteOp_remove_noop (resolve : String → Except String String)
    (op : GroupSCIMOpEntry) (hop : op.op = "remove")
    (hext : extractUsernameFromPath op.path = "") :
    rewriteOp resolve op = .ok op := by
  unfold rewriteOp
  rw [if_neg (fun hc => by rw [hop] at hc; exact absurd hc.1 (by decide))]
  rw [if_pos hop, hext, if_neg (by simp)]

/-- Claim C1: for an `UpdateGroup` operation with `op == "remove"` whose path
carries a `value eq <username>` comparator (quoted or unquoted), the username
is extracted, resolved to an opaque ID, and the entire path is replaced by
exactly `members[value eq "<resolved-id>"]`, discarding whatever else the
caller supplied; when no username can be extracted the path is left
unmodified. -/
theorem claim1_remove_path_rewrite (resolve : String → Except String String)
    (op : GroupSCIMOpEntry) (u uid : String)
    (h1 : u ≠ "") (h2 : ∀ c ∈ u.toList, c ≠ '"') (hres : resolve u = .ok uid) :
    extractUsernameFromPath ("members[value eq \"" ++ u ++ "\"]") = u ∧
    extractUsernameFromPath ("value eq " ++ u) = u ∧
    (op.op = "remove" → extractUsernameFromPath op.path = u →
      rewriteOp resolve op =
        .ok { op with path := "members[value eq \"" ++ uid ++ "\"]" }) ∧
    (op.op = "remove" → extractUsernameFromPath op.path = "" →
      rewriteOp resolve op = .ok op) :=
  ⟨extract_quoted u h1 h2, extract_unquoted u h1 h2,
    fun hop hext => rewriteOp_remove_rewrites resolve op u uid hop hext h1 hres,
    fun hop hext => rewriteOp_remove_noop resolve op hop hext⟩

/-- Concrete witness for C1: both the quoted and the unquoted (spec scenario
`value eq bob`) forms extract `bob`, and the remove operation's path is
rewritten to the canonical resolved form. -/
theorem claim1_witness :
    extractUsernameFromPath "members[value eq \"bob\"]" = "bob" ∧
    extractUsernameFromPath "value eq bob" = "bob" ∧
    rewriteOp (fun s => if s = "bob" then .ok "u-123" else .error "nf")
        ⟨"remove", "value eq bob", .null⟩ =
      .ok ⟨"remove", "members[value eq \"u-123\"]", .null⟩ := by
  have h := claim1_remove_path_rewrite
    (fun s => if s = "bob" then .ok "u-123" else .error "nf")
    ⟨"remove", "value eq bob", .null⟩ "bob" "u-123"
    (by decide) (by decide) (by rfl)
  exact ⟨h.1, h.2.1, h.2.2.1 rfl h.2.1⟩

theorem rewriteMembers_total (resolve : String → Except String String)
    (rid : String → String) (vs : List GoVal)
    (h : ∀ m u, GoVal.map m ∈ vs → lookupKey m "value" = some (.str u) →
      resolve u = .ok (rid u)) :
    rewriteMembers resolve vs = .ok (vs.map (rewriteElt rid)) := by
  induction vs with
  | nil => rfl
  | cons v vs ih =>
    have ih' := ih (fun m u hm hl => h m u (by simp [hm]) hl)
    cases v with
    | map m =>
      cases hl : lookupKey m "value" with
      | none => simp [rewriteMembers, rewriteElt, hl, ih']
      | some gv =>
        cases gv with
        | str u =>
          have hr := h m u (by simp) hl
          simp [rewriteMembers, rewriteElt, hl, hr, ih']
        | null => simp [rewriteMembers, rewriteElt, hl, ih']
        | num n => simp [rewriteMembers, rewriteElt, hl, ih']
        | bool b => simp [rewriteMembers, rewriteElt, hl, ih']
        | list xs => simp [rewriteMembers, rewriteElt, hl, ih']
        | map mm => simp [rewriteMembers, rewriteElt, hl, ih']
    | null => simp [rewriteMembers, rewriteElt, ih']
    | str s => simp [rewriteMembers, rewriteElt, ih']
    | num n => simp [rewriteMembers, rewriteElt, ih']
    | bool b => simp [rewriteMembers, rewriteElt, ih']
    | list xs => simp [rewriteMembers, rewriteElt, ih']

theorem rewriteOp_add_members (resolve : String → Except String String)
    (rid : String → String) (op : GroupSCIMOpEntry) (vs : List GoVal)
    (hop : op.op = "add") (hpath : op.path = "members") (hval : op.value = .list vs)
    (h : ∀ m u, GoVal.map m ∈ vs → lookupKey m "value" = some (.str u) →
      resolve u = .ok (rid u)) :
    rewriteOp resolve op = .ok { op with value := .list (vs.map (rewriteElt rid)) } := by
  have ht := rewriteMembers_total resolve rid vs h
  simp [rewriteOp, hop, hpath, hval, ht]

theorem rewriteOp_add_nonlist (resolve : String → Except String String)
    (op : GroupSCIMOpEntry) (hop : op.op = "add") (hpath : op.path = "members")
    (hv : ∀ ws, op.value ≠ GoVal.list ws) : rewriteOp resolve op = .ok op := by
  obtain ⟨o, p, v⟩ := op
  simp only at hop hpath hv
  subst hop; subst hpath
  cases v with
  | list ws => exact absurd rfl (hv ws)
  | null => rfl
  | str s => rfl
  | num n => rfl
  | bool b => rfl
  | map m => rfl

theorem rewriteElt_id_of_noStrValue (rid : String → String) (v : GoVal)
    (hs : hasStrValue v = false) : rewriteElt rid v = v := by
  cases v with
  | map m =>
    cases hl : lookupKey m "value" with
    | none => simp [rewriteElt, hl]
    | some gv =>
      cases gv with
      | str u => simp [hasStrValue, hl] at hs
      | null => simp [rewriteElt, hl]
      | num n => simp [rewriteElt, hl]
      | bool b => simp [rewriteElt, hl]
      | list xs => simp [rewriteElt, hl]
      | map mm => simp [rewriteElt, hl]
  | null => rfl
  | str s => rfl
  | num n => rfl
  | bool b => rfl
  | list xs => rfl

/-- Claim C2: an `add`/`members` operation whose value is a list has exactly
the elements carrying a string-typed `value` key resolved (the value replaced
by the resolver's output), every element lacking such a key is unchanged, no
error is raised for skipped elements, and a value that is not a list at all
passes through untouched. -/
theorem claim2_add_members_resolution (resolve : String → Except String String)
    (rid : String → String) (op : GroupSCIMOpEntry) (vs : List GoVal)
    (hop : op.op = "add") (hpath : op.path = "members") (hval : op.value = .list vs)
    (h : ∀ m u, GoVal.map m ∈ vs → lookupKey m "value" = some (.str u) →
      resolve u = .ok (rid u)) :
    rewriteOp resolve op = .ok { op with value := .list (vs.map (rewriteElt rid)) } ∧
    (∀ m u, lookupKey m "value" = some (GoVal.str u) →
      rewriteElt rid (.map m) = .map (setKey m "value" (.str (rid u)))) ∧
    (∀ v, hasStrValue v = false → rewriteElt rid v = v) ∧
    (∀ op' : GroupSCIMOpEntry, op'.op = "add" → op'.path = "members" →
      (∀ ws, op'.value ≠ GoVal.list ws) → rewriteOp resolve op' = .ok op') :=
  ⟨rewriteOp_add_members resolve rid op vs hop hpath hval h,
    fun m u hl => by simp [rewriteElt, hl],
    fun v hs => rewriteElt_id_of_noStrValue rid v hs,
    fun op' hop' hpath' hv => rewriteOp_add_nonlist resolve op' hop' hpath' hv⟩

/-- Concrete witness for C2: in a three-element value list, the member map
with a string `value` is resolved, the map lacking one and the non-map
element are unchanged, and no error is raised. -/
theorem claim2_witness :
    rewriteOp (fun s => .ok ("id-" ++ s))
        ⟨"add", "members", .list
          [.map [("value", .str "alice"), ("display", .str "A")],
            .map [("display", .str "B")], .str "junk"]⟩ =
      .ok ⟨"add", "members", .list
        [.map [("value", .str "id-alice"), ("display", .str "A")],
          .map [("display", .str "B")], .str "junk"]⟩ := by
  have h := claim2_add_members_resolution (fun s => .ok ("id-" ++ s))
    (fun s => "id-" ++ s)
    ⟨"add", "members", .list
      [.map [("value", .str "alice"), ("display", .str "A")],
        .map [("display", .str "B")], .str "junk"]⟩
    [.map [("value", .str "alice"), ("display", .str "A")],
      .map [("display", .str "B")], .str "junk"]
    rfl rfl rfl (fun m u _ _ => rfl)
  exact h.1

/-- Claim C3: any username-resolution failure aborts `UpdateGroup` with an
error naming the offending username before the PATCH is ever issued (the
only transport call made is the lookup GET), and a resolution failure in
`CreateGroup` likewise returns before any POST (no transport call at all). -/
theorem claim3_no_submission_on_resolution_failure :
    (∀ env auth name ops gid u em, getGroupId env name = .ok gid →
      rewriteOps env.resolve ops = .error (u, em) →
      UpdateGroup env auth name ops =
        (.err ("unable to get user ID for username " ++ u ++ "; err=" ++ em),
          [Call.get (lookupURL auth name)])) ∧
    (∀ env auth g u em, resolveMembers env.resolve g.members = .error (u, em) →
      CreateGroup env auth g =
        (.err ("unable to get user ID for username " ++ u ++ "; err=" ++ em), [])) :=
  ⟨fun env auth name ops gid u em hg hr => by simp [UpdateGroup, hg, hr],
    fun env auth g u em hr => by simp [CreateGroup, hr]⟩

/-! ### Concrete fixtures used by the witnesses -/

/-- A successful lookup body: one matching resource with id `g-1`. -/
def okLookupBody : GoVal :=
  .map [("Resources", .list [.map [("id", .str "g-1")]])]

/-- A benign environment: every transport call succeeds with its operation's
success status, the resolver prefixes `id-`, the classifier stays silent. -/
def baseEnv : Env where
  lookupResp := .ok ⟨200, "lkp", some okLookupBody⟩
  byIdResp := .ok ⟨200, "gbody",
    some (.map [("id", .str "g-1"), ("displayName", .str "Engineers")])⟩
  listResp := .ok ⟨200, "lbody",
    some (.map [("totalResults", .num 1), ("Resources", .list [])])⟩
  postResp := .ok ⟨201, "pbody", some (.map [("id", .str "g-new")])⟩
  deleteResp := .ok ⟨204, "", none⟩
  patchResp := .ok ⟨204, "", none⟩
  resolve := fun s => .ok ("id-" ++ s)
  classify := fun _ => none

/-- The tenant/token fixture. -/
def authW : AuthConfig := ⟨"tenant.example", "tok"⟩

/-- A fixture group with one member whose value is the username `bob`. -/
def groupW : Group :=
  ⟨["urn:ietf:params:scim:schemas:core:2.0:Group"], "", "", "G", true,
    [⟨"user", "bob", "Bob", ""⟩], ⟨"", []⟩, ⟨"", false, false⟩, ⟨"", ""⟩⟩

/-- Concrete witness for C3: with a resolver that fails on `bob`, the update
returns the username-naming error after only the lookup GET, and the create
returns it with no transport call at all. -/
theorem claim3_witness :
    UpdateGroup { baseEnv with resolve := fun _ => .error "nf" } authW "Engineers"
        [⟨"remove", "value eq bob", .null⟩] =
      (.err "unable to get user ID for username bob; err=nf",
        [Call.get (lookupURL authW "Engineers")]) ∧
    CreateGroup { baseEnv with resolve := fun _ => .error "nf" } authW groupW =
      (.err "unable to get user ID for username bob; err=nf", []) := by
  have h := claim3_no_submission_on_resolution_failure
  exact ⟨h.1 { baseEnv with resolve := fun _ => .error "nf" } authW "Engineers"
      [⟨"remove", "value eq bob", .null⟩] "g-1" "bob" "nf" rfl rfl,
    h.2 { baseEnv with resolve := fun _ => .error "nf" } authW groupW "bob" "nf" rfl⟩

/-- Claim C6: a lookup body whose `Resources` array is absent, non-array,
empty or malformed makes `getGroupId` fail (not-found or protocol error),
and a name-addressed operation whose lookup failed makes no further
transport call; with one or more resources only the string `id` of the
resource at index 0 is returned, no matter how many others follow. -/
theorem claim6_lookup_resources_handling :
    (∀ name, parseGroupId none name = .err "failed to parse response") ∧
    (∀ name kvs, lookupKey kvs "Resources" = none →
      parseGroupId (some (.map kvs)) name =
        .err ("no group found with group name " ++ name)) ∧
    (∀ name kvs v, lookupKey kvs "Resources" = some v →
      (∀ xs, v ≠ GoVal.list xs) →
      parseGroupId (some (.map kvs)) name =
        .err ("no group found with group name " ++ name)) ∧
    (∀ name kvs, lookupKey kvs "Resources" = some (.list []) →
      parseGroupId (some (.map kvs)) name =
        .err ("no group found with group name " ++ name)) ∧
    (∀ name kvs r0 rest, lookupKey kvs "Resources" = some (.list (r0 :: rest)) →
      (∀ m, r0 ≠ GoVal.map m) →
      parseGroupId (some (.map kvs)) name = .err "invalid resource format") ∧
    (∀ name kvs fr rest, lookupKey kvs "Resources" = some (.list (GoVal.map fr :: rest)) →
      (∀ s, lookupKey fr "id" ≠ some (.str s)) →
      parseGroupId (some (.map kvs)) name = .err "ID not found or invalid type") ∧
    (∀ name kvs fr rest i, lookupKey kvs "Resources" = some (.list (GoVal.map fr :: rest)) →
      lookupKey fr "id" = some (.str i) →
      parseGroupId (some (.map kvs)) name = .ok i) ∧
    (∀ env auth name e, getGroupId env name = .err e →
      (GetGroup env auth name).2 = [Call.get (lookupURL auth name)]) ∧
    (∀ env auth name e, getGroupId env name = .err e →
      (DeleteGroup env auth name).2 = [Call.get (lookupURL auth name)]) ∧
    (∀ env auth name ops e, getGroupId env name = .err e →
      (UpdateGroup env auth name ops).2 = [Call.get (lookupURL auth name)]) := by
  refine ⟨fun name => rfl, fun name kvs hl => by simp [parseGroupId, unmarshalToMap, hl],
    ?_, fun name kvs hl => by simp [parseGroupId, unmarshalToMap, hl], ?_, ?_,
    fun name kvs fr rest i hl hid => by simp [parseGroupId, unmarshalToMap, hl, hid],
    fun env auth name e hg => by simp [GetGroup, hg],
    fun env auth name e hg => by simp [DeleteGroup, hg],
    fun env auth name ops e hg => by simp [UpdateGroup, hg]⟩
  · intro name kvs v hl hv
    cases v with
    | list xs => exact absurd rfl (hv xs)
    | null => simp [parseGroupId, unmarshalToMap, hl]
    | str s => simp [parseGroupId, unmarshalToMap, hl]
    | num n => simp [parseGroupId, unmarshalToMap, hl]
    | bool b => simp [parseGroupId, unmarshalToMap, hl]
    | map m => simp [parseGroupId, unmarshalToMap, hl]
  · intro name kvs r0 rest hl hr
    cases r0 with
    | map m => exact absurd rfl (hr m)
    | null => simp [parseGroupId, unmarshalToMap, hl]
    | str s => simp [parseGroupId, unmarshalToMap, hl]
    | num n => simp [parseGroupId, unmarshalToMap, hl]
    | bool b => simp [parseGroupId, unmarshalToMap, hl]
    | list xs => simp [parseGroupId, unmarshalToMap, hl]
  · intro name kvs fr rest hid hne
    cases hl : lookupKey fr "id" with
    | none => simp [parseGroupId, unmarshalToMap, hid, hl]
    | some gv =>
      cases gv with
      | str s => exact absurd hl (hne s)
      | null => simp [parseGroupId, unmarshalToMap, hid, hl]
      | num n => simp [parseGroupId, unmarshalToMap, hid, hl]
      | bool b => simp [parseGroupId, unmarshalToMap, hid, hl]
      | list xs => simp [parseGroupId, unmarshalToMap, hid, hl]
      | map m => simp [parseGroupId, unmarshalToMap, hid, hl]

/-- Concrete witness for C6: each malformed-body shape produces its error,
two matching resources return the first id, and a failed lookup leaves the
operation's trace at the single lookup GET. -/
theorem claim6_witness :
    parseGroupId none "G" = .err "failed to parse response" ∧
    parseGroupId (some (.map [("foo", .str "x")])) "G" =
      .err "no group found with group name G" ∧
    parseGroupId (some (.map [("Resources", .str "x")])) "G" =
      .err "no group found with group name G" ∧
    parseGroupId (some (.map [("Resources", .list [])])) "G" =
      .err "no group found with group name G" ∧
    parseGroupId (some (.map [("Resources", .list [.str "odd"])])) "G" =
      .err "invalid resource format" ∧
    parseGroupId (some (.map [("Resources", .list [.map [("id", .num 7)]])])) "G" =
      .err "ID not found or invalid type" ∧
    parseGroupId (some (.map [("Resources",
      .list [.map [("id", .str "g-1")], .map [("id", .str "g-2")]])])) "G" = .ok "g-1" ∧
    (GetGroup { baseEnv with lookupResp := .ok ⟨200, "b", some (.map [("Resources",
      .list [])])⟩ } authW "G").2 = [Call.get (lookupURL authW "G")] := by
  have h := claim6_lookup_resources_handling
  refine ⟨h.1 "G", h.2.1 "G" [("foo", .str "x")] rfl,
    h.2.2.1 "G" [("Resources", .str "x")] (.str "x") rfl
      (fun xs hx => GoVal.noConfusion hx),
    h.2.2.2.1 "G" [("Resources", .list [])] rfl,
    h.2.2.2.2.1 "G" [("Resources", .list [.str "odd"])] (.str "odd") [] rfl
      (fun m hm => GoVal.noConfusion hm),
    h.2.2.2.2.2.1 "G" [("Resources", .list [.map [("id", .num 7)]])]
      [("id", .num 7)] [] rfl (fun s hs => by simp [lookupKey] at hs),
    h.2.2.2.2.2.2.1 "G" [("Resources",
      .list [.map [("id", .str "g-1")], .map [("id", .str "g-2")]])]
      [("id", .str "g-1")] [.map [("id", .str "g-2")]] "g-1" rfl rfl,
    h.2.2.2.2.2.2.2.1 { baseEnv with lookupResp := .ok ⟨200, "b", some (.map
      [("Resources", .list [])])⟩ } authW "G" "no group found with group name G" rfl⟩

/-- Claim C10: in `getGroupId` a non-200 status with a silent classifier
falls through to body parsing (no generic error exists in that function),
whereas `GetGroup`, `GetGroups` and `DeleteGroup` return their generic error
in the same situation. -/
theorem claim10_classifier_silent_behaviour :
    (∀ env name r, env.lookupResp = .ok r → r.statusCode ≠ 200 →
      env.classify r = none → getGroupId env name = parseGroupId r.body name) ∧
    (∀ env u r, env.byIdResp = .ok r → r.statusCode ≠ 200 →
      env.classify r = none → getGroupResult env u = .err "unable to get the Group") ∧
    (∀ env u r, env.listResp = .ok r → r.statusCode ≠ 200 →
      env.classify r = none → getGroupsResult env u = .err "unable to get the Groups") ∧
    (∀ env r, env.deleteResp = .ok r → r.statusCode ≠ 204 →
      env.classify r = none → deleteGroupResult env = .err "unable to delete the Group") :=
  ⟨fun env name r h1 h2 h3 => by simp [getGroupId, respOf, h1, h2, h3],
    fun env u r h1 h2 h3 => by simp [getGroupResult, h1, h2, h3],
    fun env u r h1 h2 h3 => by simp [getGroupsResult, h1, h2, h3],
    fun env r h1 h2 h3 => by simp [deleteGroupResult, h1, h2, h3]⟩

/-- Concrete witness for C10: with a silent classifier and status 403 the
lookup still parses the body and succeeds, while the read, list and delete
paths return their generic errors. -/
theorem claim10_witness :
    getGroupId { baseEnv with lookupResp := .ok ⟨403, "f", some okLookupBody⟩ }
      "Engineers" = .ok "g-1" ∧
    getGroupResult { baseEnv with byIdResp := .ok ⟨403, "f", none⟩ } "u" =
      .err "unable to get the Group" ∧
    getGroupsResult { baseEnv with listResp := .ok ⟨403, "f", none⟩ } "u" =
      .err "unable to get the Groups" ∧
    deleteGroupResult { baseEnv with deleteResp := .ok ⟨403, "f", none⟩ } =
      .err "unable to delete the Group" := by
  have h := claim10_classifier_silent_behaviour
  refine ⟨?_, h.2.1 _ "u" ⟨403, "f", none⟩ rfl (by decide) rfl,
    h.2.2.1 _ "u" ⟨403, "f", none⟩ rfl (by decide) rfl,
    h.2.2.2 _ ⟨403, "f", none⟩ rfl (by decide) rfl⟩
  have h1 := h.1 { baseEnv with lookupResp := .ok ⟨403, "f", some okLookupBody⟩ }
    "Engineers" ⟨403, "f", some okLookupBody⟩ rfl (by decide) rfl
  rw [h1]
  rfl

/-- Fixture for the C5 counterexample: the lookup GET reports a transport
error while handing back a well-formed 200 response. -/
def env5c : Env :=
  { baseEnv with lookupResp := .err "network down" (some ⟨200, "lkp", some okLookupBody⟩) }

/-- Counterexample to C5 as stated: the group-lookup step does NOT fail on a
transport error — `getGroupId` discards the error (`response, _ :=` at
group.go:348) and, given the accompanying well-formed response, succeeds. -/
theorem claim5_counterexample :
    getGroupId env5c "Engineers" = .ok "g-1" ∧
    (getGroupId env5c "Engineers").isErr = false :=
  ⟨rfl, rfl⟩

/-- Claim C5 (amended): a transport error makes `GetGroup`, `GetGroups`,
`CreateGroup`, `DeleteGroup` and `UpdateGroup` fail immediately with that
error returned (wrapped in the delete/update wrappers), and the status code
is checked even on a nil transport error; `getGroupId`, however, discards
the transport error and behaves exactly as if the accompanying response had
arrived without one (and panics when that response is nil). -/
theorem claim5_transport_error_handling :
    (∀ env u e r?, env.byIdResp = .err e r? → getGroupResult env u = .err e) ∧
    (∀ env u e r?, env.listResp = .err e r? → getGroupsResult env u = .err e) ∧
    (∀ env auth e r?, env.postResp = .err e r? → createGroupResult env auth = .err e) ∧
    (∀ env e r?, env.deleteResp = .err e r? →
      deleteGroupResult env = .err ("unable to delete the Group; err=" ++ e)) ∧
    (∀ env e r?, env.patchResp = .err e r? →
      updateGroupResult env = .err ("unable to update group; err=" ++ e)) ∧
    (∀ env u r, env.byIdResp = .ok r → r.statusCode ≠ 200 →
      (getGroupResult env u).isOk = false) ∧
    (∀ env name e r, env.lookupResp = .err e (some r) →
      getGroupId env name = getGroupId { env with lookupResp := .ok r } name) ∧
    (∀ env name e, env.lookupResp = .err e none → getGroupId env name = .panics) := by
  refine ⟨fun env u e r? h => by simp [getGroupResult, h],
    fun env u e r? h => by simp [getGroupsResult, h],
    fun env auth e r? h => by simp [createGroupResult, h],
    fun env e r? h => by simp [deleteGroupResult, h],
    fun env e r? h => by simp [updateGroupResult, h],
    ?_,
    fun env name e r h => by simp [getGroupId, respOf, h],
    fun env name e h => by simp [getGroupId, respOf, h]⟩
  intro env u r h1 h2
  cases hc : env.classify r with
  | none => simp [getGroupResult, h1, h2, hc, Outcome.isOk]
  | some e => simp [getGroupResult, h1, h2, hc, Outcome.isOk]

/-- Concrete witness for the amended C5. -/
theorem claim5_witness :
    getGroupResult { baseEnv with byIdResp := .err "boom" none } "u" = .err "boom" ∧
    getGroupsResult { baseEnv with listResp := .err "boom" none } "u" = .err "boom" ∧
    createGroupResult { baseEnv with postResp := .err "boom" none } authW = .err "boom" ∧
    deleteGroupResult { baseEnv with deleteResp := .err "boom" none } =
      .err "unable to delete the Group; err=boom" ∧
    updateGroupResult { baseEnv with patchResp := .err "boom" none } =
      .err "unable to update group; err=boom" ∧
    (getGroupResult { baseEnv with byIdResp := .ok ⟨500, "e", none⟩ } "u").isOk = false ∧
    getGroupId { baseEnv with lookupResp := .err "boom" none } "G" = .panics := by
  have h := claim5_transport_error_handling
  exact ⟨h.1 _ "u" "boom" none rfl, h.2.1 _ "u" "boom" none rfl,
    h.2.2.1 _ authW "boom" none rfl, h.2.2.2.1 _ "boom" none rfl,
    h.2.2.2.2.1 _ "boom" none rfl,
    h.2.2.2.2.2.1 _ "u" ⟨500, "e", none⟩ rfl (by decide),
    h.2.2.2.2.2.2.2 _ "G" "boom" rfl⟩

/-- Fixture for the C8 counterexample: the PATCH comes back 404 and the
classifier does recognize 404 as a not-found error. -/
def env8c : Env :=
  { baseEnv with
    patchResp := .ok ⟨404, "nfbody", none⟩,
    classify := fun r => if r.statusCode = 404 then some "not found" else none }

/-- Counterexample to C8 as stated: `UpdateGroup` receiving a 404 on the
PATCH returns the generic status-bearing error of group.go:329 even though
the classifier would have produced `not found` — the classifier is never
consulted there. -/
theorem claim8_counterexample :
    env8c.classify ⟨404, "nfbody", none⟩ = some "not found" ∧
    updateGroupResult env8c = .err "failed to update group ; code=404, body=nfbody" ∧
    updateGroupResult env8c ≠ .err "unable to update group; err=not found" := by
  have he : updateGroupResult env8c =
      .err "failed to update group ; code=404, body=nfbody" := rfl
  refine ⟨rfl, he, ?_⟩
  rw [he]
  intro h
  injection h with h'
  exact absurd h' (by decide)

/-- Claim C8 (amended): the exact success statuses are read=200, create=201,
delete=204, patch=204; `GetGroup`, `GetGroups` and `DeleteGroup` route any
other status through the common-error classifier before their generic
fallback (so `DeleteGroup` on a recognized 404 surfaces the classifier's
not-found error), but `CreateGroup` and `UpdateGroup` return their generic
status-bearing error directly without consulting the classifier. -/
theorem claim8_success_codes_and_classification :
    (∀ env u r, env.byIdResp = .ok r → r.statusCode = 200 →
      getGroupResult env u = (match decodeGroup r.body with
        | none => .err "unable to get the Group"
        | some g => .ok (g, u))) ∧
    (∀ env u r, env.byIdResp = .ok r → r.statusCode ≠ 200 →
      (getGroupResult env u).isOk = false) ∧
    (∀ env u r e, env.byIdResp = .ok r → r.statusCode ≠ 200 →
      env.classify r = some e → getGroupResult env u = .err e) ∧
    (∀ env u r, env.listResp = .ok r → r.statusCode = 200 →
      getGroupsResult env u = (match decodeGroupList r.body with
        | none => .err "unable to get the Groups"
        | some lr => .ok (lr, u))) ∧
    (∀ env u r e, env.listResp = .ok r → r.statusCode ≠ 200 →
      env.classify r = some e → getGroupsResult env u = .err e) ∧
    (∀ env auth r, env.postResp = .ok r → r.statusCode ≠ 201 →
      createGroupResult env auth =
        .err ("Failed to create group; code=" ++ toString r.statusCode ++
          ", body=" ++ r.raw)) ∧
    (∀ env auth r, env.postResp = .ok r → (createGroupResult env auth).isOk = true →
      r.statusCode = 201) ∧
    (∀ env r, env.deleteResp = .ok r → r.statusCode = 204 →
      deleteGroupResult env = .ok ()) ∧
    (∀ env r e, env.deleteResp = .ok r → r.statusCode ≠ 204 →
      env.classify r = some e →
      deleteGroupResult env = .err ("unable to delete the Group; err=" ++ e)) ∧
    (∀ env r, env.patchResp = .ok r → r.statusCode = 204 →
      updateGroupResult env = .ok ()) ∧
    (∀ env r, env.patchResp = .ok r → r.statusCode ≠ 204 →
      updateGroupResult env =
        .err ("failed to update group ; code=" ++ toString r.statusCode ++
          ", body=" ++ r.raw)) := by
  refine ⟨fun env u r h1 h2 => by simp [getGroupResult, h1, h2],
    ?_,
    fun env u r e h1 h2 h3 => by simp [getGroupResult, h1, h2, h3],
    fun env u r h1 h2 => by simp [getGroupsResult, h1, h2],
    fun env u r e h1 h2 h3 => by simp [getGroupsResult, h1, h2, h3],
    fun env auth r h1 h2 => by simp [createGroupResult, h1, h2],
    ?_,
    fun env r h1 h2 => by simp [deleteGroupResult, h1, h2],
    fun env r e h1 h2 h3 => by simp [deleteGroupResult, h1, h2, h3],
    fun env r h1 h2 => by simp [updateGroupResult, h1, h2],
    fun env r h1 h2 => by simp [updateGroupResult, h1, h2]⟩
  · intro env u r h1 h2
    cases hc : env.classify r with
    | none => simp [getGroupResult, h1, h2, hc, Outcome.isOk]
    | some e => simp [getGroupResult, h1, h2, hc, Outcome.isOk]
  · intro env auth r h1 hok
    by_cases hs : r.statusCode = 201
    · exact hs
    · simp [createGroupResult, h1, hs, Outcome.isOk] at hok

/-- Concrete witness for the amended C8, including the delete-404 scenario
surfacing the classifier's not-found error. -/
theorem claim8_witness :
    getGroupsResult baseEnv "u" =
      .ok (⟨1, [], []⟩, "u") ∧
    deleteGroupResult baseEnv = .ok () ∧
    updateGroupResult baseEnv = .ok () ∧
    deleteGroupResult { baseEnv with
        deleteResp := .ok ⟨404, "x", none⟩,
        classify := fun r => if r.statusCode = 404 then some "not found" else none } =
      .err "unable to delete the Group; err=not found" ∧
    createGroupResult { baseEnv with postResp := .ok ⟨409, "dup", none⟩ } authW =
      .err "Failed to create group; code=409, body=dup" := by
  have h := claim8_success_codes_and_classification
  refine ⟨?_, h.2.2.2.2.2.2.2.1 baseEnv ⟨204, "", none⟩ rfl rfl,
    h.2.2.2.2.2.2.2.2.2.1 baseEnv ⟨204, "", none⟩ rfl rfl,
    h.2.2.2.2.2.2.2.2.1 _ ⟨404, "x", none⟩ "not found" rfl (by decide) rfl,
    h.2.2.2.2.2.1 _ authW ⟨409, "dup", none⟩ rfl (by decide)⟩
  have h4 := h.2.2.2.1 baseEnv "u"
    ⟨200, "lbody", some (.map [("totalResults", .num 1), ("Resources", .list [])])⟩
    rfl rfl
  rw [h4]
  rfl

/-- Fixture for the C4 counterexample: the POST comes back 201 with a JSON
object body that has no `id` key. -/
def env4c : Env :=
  { baseEnv with postResp := .ok ⟨201, "respbody", some (.map [("name", .str "x")])⟩ }

/-- Counterexample to C4 as stated: a 201 response whose body is a JSON
mapping without a string `id` makes `CreateGroup` panic (the unchecked type
assertion of group.go:228), not return an error. -/
theorem claim4_counterexample :
    (CreateGroup env4c authW groupW).1 = Outcome.panics ∧
    ((CreateGroup env4c authW groupW).1).isErr = false :=
  ⟨rfl, rfl⟩

/-- Claim C4 (amended): `CreateGroup` succeeds exactly when the POST returns
201 and the body is a JSON object with a string `id`, in which case the
returned URL is `https://<tenant>/v2.0/Groups/<id>`; a non-201 status yields
a returned error, as does a body that fails to unmarshal into a generic
mapping (invalid JSON, or valid JSON that is neither an object nor `null`);
but a JSON `null` body — which unmarshals without error into a nil map — and
an object whose `id` is missing or not a string reach the unchecked type
assertion and cause a runtime panic (never an empty or garbage identity, but
not a returned error either). -/
theorem claim4_create_result (env : Env) (auth : AuthConfig) (r : Response)
    (hpost : env.postResp = .ok r) :
    (∀ m i, r.statusCode = 201 → r.body = some (.map m) →
      lookupKey m "id" = some (.str i) →
      createGroupResult env auth = .ok (groupByIdURL auth i)) ∧
    (r.statusCode ≠ 201 → createGroupResult env auth =
      .err ("Failed to create group; code=" ++ toString r.statusCode ++
        ", body=" ++ r.raw)) ∧
    (r.statusCode = 201 → unmarshalToMap r.body = none →
      createGroupResult env auth = .err "Failed to parse response") ∧
    (r.statusCode = 201 → r.body = some GoVal.null →
      createGroupResult env auth = .panics) ∧
    (r.statusCode = 201 → ∀ m, unmarshalToMap r.body = some m →
      (∀ s, lookupKey m "id" ≠ some (.str s)) →
      createGroupResult env auth = .panics) ∧
    ((createGroupResult env auth).isOk = true → r.statusCode = 201 ∧
      ∃ m i, r.body = some (.map m) ∧ lookupKey m "id" = some (.str i)) ∧
    (∀ g ms', resolveMembers env.resolve g.members = .ok ms' →
      (CreateGroup env auth g).1 = createGroupResult env auth) := by
  refine ⟨fun m i h1 h2 h3 =>
      by simp [createGroupResult, unmarshalToMap, hpost, h1, h2, h3],
    fun h1 => by simp [createGroupResult, hpost, h1],
    fun h1 h2 => by simp [createGroupResult, hpost, h1, h2],
    fun h1 h2 => by simp [createGroupResult, unmarshalToMap, lookupKey, hpost, h1, h2],
    ?_, ?_,
    fun g ms' hres => by simp [CreateGroup, hres]⟩
  · intro h1 m hm hne
    cases hid : lookupKey m "id" with
    | none => simp [createGroupResult, hpost, h1, hm, hid]
    | some gv =>
      cases gv with
      | str s => exact absurd hid (hne s)
      | null => simp [createGroupResult, hpost, h1, hm, hid]
      | num n => simp [createGroupResult, hpost, h1, hm, hid]
      | bool b => simp [createGroupResult, hpost, h1, hm, hid]
      | list xs => simp [createGroupResult, hpost, h1, hm, hid]
      | map mm => simp [createGroupResult, hpost, h1, hm, hid]
  · intro hok
    by_cases h1 : r.statusCode = 201
    · refine ⟨h1, ?_⟩
      cases hb : r.body with
      | none => simp [createGroupResult, unmarshalToMap, hpost, h1, hb,
          Outcome.isOk] at hok
      | some v =>
        cases v with
        | map kvs =>
          cases hid : lookupKey kvs "id" with
          | none => simp [createGroupResult, unmarshalToMap, hpost, h1, hb, hid,
              Outcome.isOk] at hok
          | some gv =>
            cases gv with
            | str s => exact ⟨kvs, s, rfl, hid⟩
            | null => simp [createGroupResult, unmarshalToMap, hpost, h1, hb, hid,
                Outcome.isOk] at hok
            | num n => simp [createGroupResult, unmarshalToMap, hpost, h1, hb, hid,
                Outcome.isOk] at hok
            | bool b => simp [createGroupResult, unmarshalToMap, hpost, h1, hb, hid,
                Outcome.isOk] at hok
            | list xs => simp [createGroupResult, unmarshalToMap, hpost, h1, hb, hid,
                Outcome.isOk] at hok
            | map mm => simp [createGroupResult, unmarshalToMap, hpost, h1, hb, hid,
                Outcome.isOk] at hok
        | null => simp [createGroupResult, unmarshalToMap, lookupKey, hpost, h1, hb,
            Outcome.isOk] at hok
        | str s => simp [createGroupResult, unmarshalToMap, hpost, h1, hb,
            Outcome.isOk] at hok
        | num n => simp [createGroupResult, unmarshalToMap, hpost, h1, hb,
            Outcome.isOk] at hok
        | bool b => simp [createGroupResult, unmarshalToMap, hpost, h1, hb,
            Outcome.isOk] at hok
        | list xs => simp [createGroupResult, unmarshalToMap, hpost, h1, hb,
            Outcome.isOk] at hok
    · simp [createGroupResult, hpost, h1, Outcome.isOk] at hok

/-- Concrete witness for the amended C4, including the JSON `null` body that
unmarshals into a nil map and panics at the unchecked `id` assertion. -/
theorem claim4_witness :
    createGroupResult baseEnv authW = .ok (groupByIdURL authW "g-new") ∧
    createGroupResult { baseEnv with postResp := .ok ⟨409, "dup2", none⟩ } authW =
      .err "Failed to create group; code=409, body=dup2" ∧
    createGroupResult { baseEnv with postResp := .ok ⟨201, "z", some (.str "zz")⟩ }
      authW = .err "Failed to parse response" ∧
    createGroupResult { baseEnv with postResp := .ok ⟨201, "null", some .null⟩ }
      authW = .panics ∧
    (CreateGroup baseEnv authW groupW).1 = createGroupResult baseEnv authW := by
  refine ⟨(claim4_create_result baseEnv authW ⟨201, "pbody",
      some (.map [("id", .str "g-new")])⟩ rfl).1 [("id", .str "g-new")] "g-new"
      rfl rfl rfl,
    (claim4_create_result _ authW ⟨409, "dup2", none⟩ rfl).2.1 (by decide),
    (claim4_create_result _ authW ⟨201, "z", some (.str "zz")⟩ rfl).2.2.1 rfl rfl,
    (claim4_create_result _ authW ⟨201, "null", some .null⟩ rfl).2.2.2.1 rfl rfl,
    (claim4_create_result baseEnv authW ⟨201, "pbody",
      some (.map [("id", .str "g-new")])⟩ rfl).2.2.2.2.2.2 groupW
      [⟨"user", "id-bob", "Bob", ""⟩] rfl⟩

theorem resolveMembers_total (resolve : String → Except String String)
    (rid : String → String) (ms : List Member)
    (h : ∀ m ∈ ms, resolve m.value = .ok (rid m.value)) :
    resolveMembers resolve ms =
      .ok (ms.map (fun m => { m with value := rid m.value })) := by
  induction ms with
  | nil => rfl
  | cons m ms ih =>
    have hm := h m (by simp)
    have ih' := ih (fun x hx => h x (by simp [hx]))
    simp [resolveMembers, hm, ih']

/-- Claim C7: `CreateGroup` resolves every member's `Value` (as a username)
before serialization, so the member list carried by the outbound POST is the
input list with each `value` replaced by the resolver's output for that
member's pre-call username. -/
theorem claim7_create_resolves_members (env : Env) (auth : AuthConfig)
    (group : Group) (rid : String → String)
    (h : ∀ m ∈ group.members, env.resolve m.value = .ok (rid m.value)) :
    resolveMembers env.resolve group.members =
      .ok (group.members.map (fun m => { m with value := rid m.value })) ∧
    (CreateGroup env auth group).2 =
      [Call.post (collectionURL auth)
        { group with
          members := group.members.map (fun m => { m with value := rid m.value }) }] := by
  have h1 := resolveMembers_total env.resolve rid group.members h
  exact ⟨h1, by simp [CreateGroup, h1]⟩

/-- Concrete witness for C7: the posted group carries `id-bob` in place of
the caller's username `bob`. -/
theorem claim7_witness :
    (CreateGroup baseEnv authW groupW).2 =
      [Call.post (collectionURL authW)
        ⟨["urn:ietf:params:scim:schemas:core:2.0:Group"], "", "", "G", true,
          [⟨"user", "id-bob", "Bob", ""⟩], ⟨"", []⟩, ⟨"", false, false⟩, ⟨"", ""⟩⟩] :=
  (claim7_create_resolves_members baseEnv authW groupW (fun s => "id-" ++ s)
    (fun _ _ => rfl)).2

/-- Claim C9: `GetGroups` attaches `sortBy` exactly when the sort argument is
non-empty and `count` exactly when the count argument is non-empty, and with
both empty the request URL carries no query string at all. -/
theorem claim9_groups_query_parameters (env : Env) (auth : AuthConfig)
    (sort count : String) :
    ((getGroupsParams sort count).any (fun p => p.1 == "sortBy") = true ↔ sort ≠ "") ∧
    ((getGroupsParams sort count).any (fun p => p.1 == "count") = true ↔ count ≠ "") ∧
    (sort = "" → count = "" → groupsURL auth sort count = collectionURL auth) ∧
    (GetGroups env auth sort count).2 = [Call.get (groupsURL auth sort count)] := by
  refine ⟨?_, ?_, ?_, rfl⟩ <;>
    by_cases hs : sort = "" <;> by_cases hc : count = "" <;>
      simp [getGroupsParams, groupsURL, hs, hc]

/-- Concrete witness for C9. -/
theorem claim9_witness :
    (getGroupsParams "displayName" "10").any (fun p => p.1 == "sortBy") = true ∧
    (getGroupsParams "displayName" "10").any (fun p => p.1 == "count") = true ∧
    groupsURL authW "" "" = collectionURL authW ∧
    (GetGroups baseEnv authW "" "").2 = [Call.get (groupsURL authW "" "")] := by
  have h := claim9_groups_query_parameters baseEnv authW "displayName" "10"
  have h2 := claim9_groups_query_parameters baseEnv authW "" ""
  exact ⟨h.1.mpr (by decide), h.2.1.mpr (by decide), h2.2.2.1 rfl rfl, h2.2.2.2⟩

end VerifyDirectory
